import Mathlib

/-!
Verification of the consistency-enforcer module of the cricket prediction
system (source: src/utils/helpers/data_consistency.py, class DataConsistency).

Modelling conventions:
* Python numbers are modelled as rationals.  `PyVal` is a dictionary value in
  a numeric slot: either a number or a non-numeric value (such as None) on
  which Python arithmetic and comparisons raise TypeError.
* A Python dict is modelled as a structure whose fields are `Option`-valued:
  `none` is an absent key.  `dget` mirrors `dict.get(key, 0)`.
* Functions that can raise are embedded in `Except String`; the source never
  divides by zero (every division is behind a positivity guard), so plain
  rational division is used after the operands have been forced numeric.
* `round(x, n)` in Python is round-half-to-even at `n` decimal digits,
  modelled by `pyRound` over the rationals.
* The class only emits log warnings as a side channel; logging is dropped
  from the model (it does not affect the returned records).
* A parallel pure model (`battingFix`, `bowlingFix`, `adjustFix`,
  `fantasyFix`, `matchFix`) runs the same algorithms on records whose
  numeric slots are `Option ℚ`.  Agreement lemmas prove that on every record
  with no non-numeric junk the `Except`-embedded functions return `ok` of
  the pure result, so claims about numeric behaviour are settled on the
  pure model.
-/

/-- Python round-half-to-even of a rational to an integer. -/
def roundHalfEven (x : ℚ) : ℤ :=
  if x - ⌊x⌋ < 1/2 then ⌊x⌋
  else if 1/2 < x - ⌊x⌋ then ⌊x⌋ + 1
  else if ⌊x⌋ % 2 = 0 then ⌊x⌋ else ⌊x⌋ + 1

/-- Python `round(x, n)`: round-half-to-even at `n` decimal digits. -/
def pyRound (x : ℚ) (n : ℕ) : ℚ :=
  (roundHalfEven (x * 10 ^ n) : ℚ) / 10 ^ n

/-- Python `str.lower()` (ASCII, which covers the role strings involved). -/
def pyLower (s : String) : String := ⟨s.data.map Char.toLower⟩

/-- Python `str.upper()` (ASCII, which covers the format strings involved). -/
def pyUpper (s : String) : String := ⟨s.data.map Char.toUpper⟩

/-- Substring test on character lists: does the haystack contain the needle? -/
def subList : List Char → List Char → Bool
  | n, [] => n.isEmpty
  | n, c :: t => n.isPrefixOf (c :: t) || subList n t

/-- Python `needle in hay` for strings (substring containment). -/
def strContains (hay needle : String) : Bool := subList needle.data hay.data

/-- A value sitting in a numeric slot of an input dict: a number, or a
non-numeric value (e.g. None) on which Python comparisons and arithmetic
raise TypeError. -/
inductive PyVal where
  | num (q : ℚ)
  | nonNum
  deriving DecidableEq

/-- `dict.get(key, 0)`: an absent key yields the numeric default 0. -/
def dget (v : Option PyVal) : PyVal := v.getD (.num 0)

/-- Force a value to a number; Python raises TypeError when a comparison or
an arithmetic operation touches a non-numeric operand. -/
def pyNum : PyVal → Except String ℚ
  | .num q => .ok q
  | .nonNum => .error "TypeError"

/-- Sequential effectful map over a list, mirroring a Python for-loop that
stops at the first raised error. -/
def mapME {α β : Type} (f : α → Except String β) : List α → Except String (List β)
  | [] => .ok []
  | a :: t => do
    let b ← f a
    let bs ← mapME f t
    pure (b :: bs)

/-- Python dict lookup with default over an association list (dict keys are
unique, so the first match is the only match). -/
def dlookup {α : Type} (l : List (String × α)) (k : String) (dflt : α) : α :=
  match l with
  | [] => dflt
  | (k₁, v) :: t => if k₁ = k then v else dlookup t k dflt

/-- Python `d[k] = v` for a key already present in the dict (dict keys are
unique, so replacing every matching entry is the Python dict semantics). -/
def dset {α : Type} (l : List (String × α)) (k : String) (v : α) :
    List (String × α) :=
  l.map fun p => if p.1 = k then (k, v) else p

/-- A batting-performance dict (the five keys the source reads/writes). -/
structure BattingDict where
  expected_runs : Option PyVal
  expected_balls : Option PyVal
  expected_strike_rate : Option PyVal
  expected_fours : Option PyVal
  expected_sixes : Option PyVal
  deriving DecidableEq

/-- A bowling-performance dict (the four keys the source reads/writes). -/
structure BowlingDict where
  expected_overs : Option PyVal
  expected_economy : Option PyVal
  expected_wickets : Option PyVal
  expected_runs_conceded : Option PyVal
  deriving DecidableEq

/-- The `personalInformation` sub-dict of a player record. -/
structure PersonalInfo where
  role : Option String
  deriving DecidableEq

/-- A player record.  The source reads the role from
`player_data.get('personalInformation', {}).get('role', '')`; the top-level
`role` slot is carried in the model to settle claims about which location
is read, and is never touched by the function. -/
structure PlayerDataDict where
  personalInformation : Option PersonalInfo
  role : Option String
  deriving DecidableEq

/-- A player prediction: optional batting / bowling sub-dicts. -/
structure PredDict where
  batting : Option BattingDict
  bowling : Option BowlingDict
  deriving DecidableEq

/-- The `performance` sub-dict of a fantasy-team member. -/
structure PerfDict where
  batting : Option BattingDict
  bowling : Option BowlingDict
  deriving DecidableEq

/-- A fantasy-team member. -/
structure PlayerDict where
  name : Option String
  performance : Option PerfDict
  deriving DecidableEq, Inhabited

/-- A fantasy-team dict. -/
structure FantasyDict where
  players : Option (List PlayerDict)
  captain : Option String
  vice_captain : Option String
  deriving DecidableEq

/-- The `prediction` sub-dict of a match prediction. -/
structure PredSubDict where
  team_probabilities : Option (List (String × PyVal))
  win_probability : Option PyVal
  deriving DecidableEq

/-- A match-prediction dict.  The source reads `team_probabilities` under
the `prediction` sub-dict and writes `win_probability` there; the top-level
slots of the same names are carried to settle claims about which location
is read, and are never touched by the function. -/
structure MatchPredDict where
  prediction : Option PredSubDict
  team_probabilities : Option (List (String × PyVal))
  win_probability : Option PyVal
  expected_scores : Option (List (String × PyVal))
  deriving DecidableEq

namespace DataConsistency

/-- `DataConsistency.ensure_batting_consistency`.  Order of forcing follows
the order in which Python first touches each value: `balls` in the
`balls > 0` test, `runs`, `fours`, `sixes` no later than the
`boundary_runs > runs` test (reached on every non-raising path), and
`strike_rate` only when `balls <= 0` (when `balls > 0` it is overwritten
without being read). -/
def ensure_batting_consistency (d : BattingDict) :
    Except String BattingDict := do
  let balls₀ ← pyNum (dget d.expected_balls)
  let runs ← pyNum (dget d.expected_runs)
  let fours₀ ← pyNum (dget d.expected_fours)
  let sixes₀ ← pyNum (dget d.expected_sixes)
  let (strike_rate, balls) ←
    if 0 < balls₀ then
      pure ((runs / balls₀) * 100, balls₀)
    else do
      let sr ← pyNum (dget d.expected_strike_rate)
      if 0 < sr then pure (sr, (runs / sr) * 100) else pure (sr, balls₀)
  let boundary_runs := fours₀ * 4 + sixes₀ * 6
  let (fours, sixes) :=
    if runs < boundary_runs then
      let scale_factor := runs / max 1 boundary_runs
      (fours₀ * scale_factor, sixes₀ * scale_factor)
    else (fours₀, sixes₀)
  pure
    { expected_runs := some (.num (pyRound (max 0 runs) 1))
      expected_balls := some (.num (pyRound (max 1 balls) 1))
      expected_strike_rate := some (.num (pyRound (max 0 strike_rate) 1))
      expected_fours := some (.num (pyRound (max 0 fours) 1))
      expected_sixes := some (.num (pyRound (max 0 sixes) 1)) }

/-- `DataConsistency.ensure_bowling_consistency`.  Forcing order mirrors
Python: `overs` first; with `overs > 0` the conjunction touches `economy`,
and when `economy <= 0` the elif touches `runs_conceded`; with
`overs <= 0` the elif touches `runs_conceded` and the final clamp touches
`economy`.  When `overs > 0` and `economy > 0` the old `runs_conceded` is
overwritten without ever being read. -/
def ensure_bowling_consistency (d : BowlingDict)
    (format_type : String := "T20I") : Except String BowlingDict := do
  let overs₀ ← pyNum (dget d.expected_overs)
  let (runs_conceded, economy) ←
    if 0 < overs₀ then do
      let economy₀ ← pyNum (dget d.expected_economy)
      if 0 < economy₀ then
        pure (economy₀ * overs₀, economy₀)
      else do
        let rc ← pyNum (dget d.expected_runs_conceded)
        if 0 < rc then pure (rc, rc / overs₀) else pure (rc, economy₀)
    else do
      let rc ← pyNum (dget d.expected_runs_conceded)
      let economy₀ ← pyNum (dget d.expected_economy)
      pure (rc, economy₀)
  let wickets ← pyNum (dget d.expected_wickets)
  let overs :=
    if pyUpper format_type = "T20I" then min overs₀ 4
    else if pyUpper format_type = "ODI" then min overs₀ 10
    else overs₀
  pure
    { expected_overs := some (.num (pyRound (max 0 overs) 1))
      expected_economy := some (.num (pyRound (max 0 economy) 1))
      expected_wickets := some (.num (pyRound (max 0 wickets) 1))
      expected_runs_conceded := some (.num (pyRound (max 0 runs_conceded) 1)) }

/-- The role string the source classifies on:
`player_data.get('personalInformation', {}).get('role', '').lower()`. -/
def roleOf (pd : PlayerDataDict) : String :=
  pyLower ((pd.personalInformation.getD { role := none }).role.getD "")

/-- Batsman / all-rounder clause on the batting sub-dict:
`if runs < 20: prediction['batting']['expected_runs'] = max(runs, 20)`
with threshold `lo`. -/
def raiseRuns (lo : ℚ) (b : BattingDict) : Except String BattingDict := do
  let runs ← pyNum (dget b.expected_runs)
  if runs < lo then
    pure { b with expected_runs := some (.num (max runs lo)) }
  else
    pure b

/-- Bowler clause on the batting sub-dict:
`if runs > 15: prediction['batting']['expected_runs'] = min(runs, 15)`. -/
def capRuns (hi : ℚ) (b : BattingDict) : Except String BattingDict := do
  let runs ← pyNum (dget b.expected_runs)
  if hi < runs then
    pure { b with expected_runs := some (.num (min runs hi)) }
  else
    pure b

/-- Batsman clause on the bowling sub-dict:
`if wickets > 0.5: prediction['bowling']['expected_wickets'] = min(wickets, 0.5)`
with threshold `hi`. -/
def capWickets (hi : ℚ) (w : BowlingDict) : Except String BowlingDict := do
  let wickets ← pyNum (dget w.expected_wickets)
  if hi < wickets then
    pure { w with expected_wickets := some (.num (min wickets hi)) }
  else
    pure w

/-- Bowler / all-rounder clause on the bowling sub-dict:
`if wickets < lo: prediction['bowling']['expected_wickets'] = max(wickets, lo)`. -/
def raiseWickets (lo : ℚ) (w : BowlingDict) : Except String BowlingDict := do
  let wickets ← pyNum (dget w.expected_wickets)
  if wickets < lo then
    pure { w with expected_wickets := some (.num (max wickets lo)) }
  else
    pure w

/-- Apply a clause to the batting sub-dict when present (`'batting' in prediction`). -/
def onBatting (f : BattingDict → Except String BattingDict)
    (p : PredDict) : Except String PredDict := do
  match p.batting with
  | none => pure p
  | some b => do
    let b₁ ← f b
    pure { p with batting := some b₁ }

/-- Apply a clause to the bowling sub-dict when present (`'bowling' in prediction`). -/
def onBowling (f : BowlingDict → Except String BowlingDict)
    (p : PredDict) : Except String PredDict := do
  match p.bowling with
  | none => pure p
  | some w => do
    let w₁ ← f w
    pure { p with bowling := some w₁ }

/-- `DataConsistency.ensure_player_role_consistency`: case-insensitive
substring classification of the role, first match winning, then the role
policy on whichever sub-dicts are present. -/
def ensure_player_role_consistency (pd : PlayerDataDict) (p : PredDict) :
    Except String PredDict := do
  let role := roleOf pd
  if strContains role "batsman" then do
    let p₁ ← onBatting (raiseRuns 20) p
    onBowling (capWickets (1/2)) p₁
  else if strContains role "bowler" then do
    let p₁ ← onBatting (capRuns 15) p
    onBowling (raiseWickets 1) p₁
  else if strContains role "all-rounder" || strContains role "all rounder" then do
    let p₁ ← onBatting (raiseRuns 15) p
    onBowling (raiseWickets (1/2)) p₁
  else
    pure p

/-- Per-player step of the fantasy-team loop: reconcile the batting and
bowling sub-dicts of `player.get('performance', {})` when present. -/
def fixPlayer (format_type : String) (p : PlayerDict) :
    Except String PlayerDict := do
  match p.performance with
  | none => pure p
  | some perf => do
    let b₁ ←
      match perf.batting with
      | none => pure none
      | some b => do
        let b₁ ← ensure_batting_consistency b
        pure (some b₁)
    let w₁ ←
      match perf.bowling with
      | none => pure none
      | some w => do
        let w₁ ← ensure_bowling_consistency w format_type
        pure (some w₁)
    pure { p with performance := some { batting := b₁, bowling := w₁ } }

/-- `DataConsistency.ensure_fantasy_team_consistency`.  The roster-size
check only logs; captain and vice-captain are repaired by exact name match
against `p.get('name', '')`, falling back to players 0 and 1. -/
def ensure_fantasy_team_consistency (d : FantasyDict)
    (format_type : String := "T20I") : Except String FantasyDict := do
  let players := d.players.getD []
  let captain := d.captain.getD ""
  let vice_captain := d.vice_captain.getD ""
  let captain_in_team := players.any fun p => p.name.getD "" = captain
  let vice_captain_in_team := players.any fun p => p.name.getD "" = vice_captain
  let captain₁ :=
    if ¬captain_in_team ∧ players ≠ [] then
      some ((players.headI).name.getD "")
    else d.captain
  let vice_captain₁ :=
    if ¬vice_captain_in_team ∧ 1 < players.length then
      some ((players.getD 1 default).name.getD "")
    else d.vice_captain
  let players₁ ← mapME (fixPlayer format_type) players
  pure
    { players := d.players.map fun _ => players₁
      captain := captain₁
      vice_captain := vice_captain₁ }

/-- Score clamp of the match aggregator, per `expected_scores` entry:
T20I scores to [120, 220], ODI scores to [200, 350], other formats leave
the value untouched (so a non-numeric score only raises under a clamped
format, where `min`/`max` touch it). -/
def clampScoreE (format_type : String) (v : PyVal) : Except String PyVal := do
  if pyUpper format_type = "T20I" then do
    let s ← pyNum v
    pure (.num (max 120 (min s 220)))
  else if pyUpper format_type = "ODI" then do
    let s ← pyNum v
    pure (.num (max 200 (min s 350)))
  else
    pure v

/-- `DataConsistency.ensure_match_prediction_consistency`.  Probabilities
are read from `match_prediction.get('prediction', {}).get('team_probabilities', {})`
and normalized only when the dict is non-empty with exactly two keys;
`win_probability` is written into the `prediction` sub-dict.  Scores are
read from the top-level `expected_scores` and clamped per format. -/
def ensure_match_prediction_consistency (d : MatchPredDict)
    (format_type : String := "T20I") : Except String MatchPredDict := do
  let d₁ ←
    match d.prediction with
    | none => pure d
    | some pr =>
      match pr.team_probabilities with
      | none => pure d
      | some probs =>
        match probs with
        | [(team1, _), (team2, _)] => do
          let prob1₀ ← pyNum (dlookup probs team1 (.num (1/2)))
          let prob2₀ ← pyNum (dlookup probs team2 (.num (1/2)))
          let total_prob := prob1₀ + prob2₀
          let (prob1, prob2) :=
            if 0 < total_prob then
              (prob1₀ / total_prob, prob2₀ / total_prob)
            else (1/2, 1/2)
          let probs₁ := dset (dset probs team1 (.num (pyRound prob1 3)))
            team2 (.num (pyRound prob2 3))
          let pr₁ : PredSubDict :=
            { team_probabilities := some probs₁
              win_probability := some (.num (pyRound (max prob1 prob2) 3)) }
          pure { d with prediction := some pr₁ }
        | _ => pure d
  let scores₁ ←
    match d₁.expected_scores with
    | none => pure none
    | some scores => do
      let scores₁ ← mapME (fun p => do
        let v₁ ← clampScoreE format_type p.2
        pure (p.1, v₁)) scores
      pure (some scores₁)
  pure { d₁ with expected_scores := scores₁ }

end DataConsistency

/-! ## Pure model: the same algorithms on all-numeric records -/

/-- A batting record with numeric (or absent) slots. -/
structure BattingRec where
  expected_runs : Option ℚ
  expected_balls : Option ℚ
  expected_strike_rate : Option ℚ
  expected_fours : Option ℚ
  expected_sixes : Option ℚ
  deriving DecidableEq

/-- A bowling record with numeric (or absent) slots. -/
structure BowlingRec where
  expected_overs : Option ℚ
  expected_economy : Option ℚ
  expected_wickets : Option ℚ
  expected_runs_conceded : Option ℚ
  deriving DecidableEq

/-- A player prediction over numeric records. -/
structure PredRec where
  batting : Option BattingRec
  bowling : Option BowlingRec
  deriving DecidableEq

/-- A performance sub-record over numeric records. -/
structure PerfRec where
  batting : Option BattingRec
  bowling : Option BowlingRec
  deriving DecidableEq

/-- A fantasy-team member over numeric records. -/
structure PlayerRec where
  name : Option String
  performance : Option PerfRec
  deriving DecidableEq, Inhabited

/-- A fantasy team over numeric records. -/
structure FantasyRec where
  players : Option (List PlayerRec)
  captain : Option String
  vice_captain : Option String
  deriving DecidableEq

/-- A prediction sub-record over numeric probabilities. -/
structure PredSubRec where
  team_probabilities : Option (List (String × ℚ))
  win_probability : Option ℚ
  deriving DecidableEq

/-- A match prediction over numeric values.  As in `MatchPredDict`, the
top-level `team_probabilities` and `win_probability` slots are never read
or written by the source. -/
structure MatchPredRec where
  prediction : Option PredSubRec
  team_probabilities : Option (List (String × ℚ))
  win_probability : Option ℚ
  expected_scores : Option (List (String × ℚ))
  deriving DecidableEq

/-- Pure batting reconciler: `ensure_batting_consistency` on an all-numeric
record (missing slots read as 0 through `dict.get`). -/
def battingFix (r : BattingRec) : BattingRec :=
  let balls₀ := r.expected_balls.getD 0
  let runs := r.expected_runs.getD 0
  let fours₀ := r.expected_fours.getD 0
  let sixes₀ := r.expected_sixes.getD 0
  let (strike_rate, balls) :=
    if 0 < balls₀ then ((runs / balls₀) * 100, balls₀)
    else
      let sr := r.expected_strike_rate.getD 0
      if 0 < sr then (sr, (runs / sr) * 100) else (sr, balls₀)
  let boundary_runs := fours₀ * 4 + sixes₀ * 6
  let (fours, sixes) :=
    if runs < boundary_runs then
      let scale_factor := runs / max 1 boundary_runs
      (fours₀ * scale_factor, sixes₀ * scale_factor)
    else (fours₀, sixes₀)
  { expected_runs := some (pyRound (max 0 runs) 1)
    expected_balls := some (pyRound (max 1 balls) 1)
    expected_strike_rate := some (pyRound (max 0 strike_rate) 1)
    expected_fours := some (pyRound (max 0 fours) 1)
    expected_sixes := some (pyRound (max 0 sixes) 1) }

/-- Pure bowling reconciler: `ensure_bowling_consistency` on an all-numeric
record. -/
def bowlingFix (r : BowlingRec) (format_type : String := "T20I") : BowlingRec :=
  let overs₀ := r.expected_overs.getD 0
  let economy₀ := r.expected_economy.getD 0
  let rc₀ := r.expected_runs_conceded.getD 0
  let (runs_conceded, economy) :=
    if 0 < overs₀ then
      if 0 < economy₀ then (economy₀ * overs₀, economy₀)
      else if 0 < rc₀ then (rc₀, rc₀ / overs₀)
      else (rc₀, economy₀)
    else (rc₀, economy₀)
  let wickets := r.expected_wickets.getD 0
  let overs :=
    if pyUpper format_type = "T20I" then min overs₀ 4
    else if pyUpper format_type = "ODI" then min overs₀ 10
    else overs₀
  { expected_overs := some (pyRound (max 0 overs) 1)
    expected_economy := some (pyRound (max 0 economy) 1)
    expected_wickets := some (pyRound (max 0 wickets) 1)
    expected_runs_conceded := some (pyRound (max 0 runs_conceded) 1) }

/-- Pure batsman / all-rounder clause on a batting record. -/
def raiseRunsQ (lo : ℚ) (b : BattingRec) : BattingRec :=
  let runs := b.expected_runs.getD 0
  if runs < lo then { b with expected_runs := some (max runs lo) } else b

/-- Pure bowler clause on a batting record. -/
def capRunsQ (hi : ℚ) (b : BattingRec) : BattingRec :=
  let runs := b.expected_runs.getD 0
  if hi < runs then { b with expected_runs := some (min runs hi) } else b

/-- Pure batsman clause on a bowling record. -/
def capWicketsQ (hi : ℚ) (w : BowlingRec) : BowlingRec :=
  let wickets := w.expected_wickets.getD 0
  if hi < wickets then { w with expected_wickets := some (min wickets hi) } else w

/-- Pure bowler / all-rounder clause on a bowling record. -/
def raiseWicketsQ (lo : ℚ) (w : BowlingRec) : BowlingRec :=
  let wickets := w.expected_wickets.getD 0
  if wickets < lo then { w with expected_wickets := some (max wickets lo) } else w

/-- Apply a clause to a present batting sub-record. -/
def onBattingQ (f : BattingRec → BattingRec) (p : PredRec) : PredRec :=
  match p.batting with
  | none => p
  | some b => { p with batting := some (f b) }

/-- Apply a clause to a present bowling sub-record. -/
def onBowlingQ (f : BowlingRec → BowlingRec) (p : PredRec) : PredRec :=
  match p.bowling with
  | none => p
  | some w => { p with bowling := some (f w) }

/-- Pure role adjuster: `ensure_player_role_consistency` on an all-numeric
prediction. -/
def adjustFix (pd : PlayerDataDict) (p : PredRec) : PredRec :=
  let role := DataConsistency.roleOf pd
  if strContains role "batsman" then
    onBowlingQ (capWicketsQ (1/2)) (onBattingQ (raiseRunsQ 20) p)
  else if strContains role "bowler" then
    onBowlingQ (raiseWicketsQ 1) (onBattingQ (capRunsQ 15) p)
  else if strContains role "all-rounder" || strContains role "all rounder" then
    onBowlingQ (raiseWicketsQ (1/2)) (onBattingQ (raiseRunsQ 15) p)
  else p

/-- Pure per-player step of the fantasy-team loop. -/
def fixPlayerQ (format_type : String) (p : PlayerRec) : PlayerRec :=
  match p.performance with
  | none => p
  | some perf =>
    let perf₁ : PerfRec :=
      { batting := perf.batting.map battingFix
        bowling := perf.bowling.map fun w => bowlingFix w format_type }
    { p with performance := some perf₁ }

/-- Pure fantasy-team reconciler: `ensure_fantasy_team_consistency` on an
all-numeric team. -/
def fantasyFix (d : FantasyRec) (format_type : String := "T20I") : FantasyRec :=
  let players := d.players.getD []
  let captain := d.captain.getD ""
  let vice_captain := d.vice_captain.getD ""
  let captain_in_team := players.any fun p => p.name.getD "" = captain
  let vice_captain_in_team := players.any fun p => p.name.getD "" = vice_captain
  let captain₁ :=
    if ¬captain_in_team ∧ players ≠ [] then
      some ((players.headI).name.getD "")
    else d.captain
  let vice_captain₁ :=
    if ¬vice_captain_in_team ∧ 1 < players.length then
      some ((players.getD 1 default).name.getD "")
    else d.vice_captain
  { players := d.players.map fun _ => players.map (fixPlayerQ format_type)
    captain := captain₁
    vice_captain := vice_captain₁ }

/-- Pure score clamp of the match aggregator. -/
def clampScoreQ (format_type : String) (s : ℚ) : ℚ :=
  if pyUpper format_type = "T20I" then max 120 (min s 220)
  else if pyUpper format_type = "ODI" then max 200 (min s 350)
  else s

/-- Pure match-prediction reconciler: `ensure_match_prediction_consistency`
on all-numeric values. -/
def matchFix (d : MatchPredRec) (format_type : String := "T20I") : MatchPredRec :=
  let d₁ :=
    match d.prediction with
    | none => d
    | some pr =>
      match pr.team_probabilities with
      | none => d
      | some probs =>
        match probs with
        | [(team1, _), (team2, _)] =>
          let prob1₀ := dlookup probs team1 (1/2)
          let prob2₀ := dlookup probs team2 (1/2)
          let total_prob := prob1₀ + prob2₀
          let (prob1, prob2) :=
            if 0 < total_prob then
              (prob1₀ / total_prob, prob2₀ / total_prob)
            else (1/2, 1/2)
          let probs₁ := dset (dset probs team1 (pyRound prob1 3))
            team2 (pyRound prob2 3)
          let pr₁ : PredSubRec :=
            { team_probabilities := some probs₁
              win_probability := some (pyRound (max prob1 prob2) 3) }
          { d with prediction := some pr₁ }
        | _ => d
  { d₁ with expected_scores :=
      d₁.expected_scores.map fun scores =>
        scores.map fun p => (p.1, clampScoreQ format_type p.2) }

/-! ## Injections of the pure records into the dict layer -/

/-- A numeric (or absent) slot as a dict slot. -/
def numSlot (v : Option ℚ) : Option PyVal := v.map .num

/-- Injection of a batting record into the dict layer. -/
def toPyBatting (r : BattingRec) : BattingDict :=
  ⟨numSlot r.expected_runs, numSlot r.expected_balls,
   numSlot r.expected_strike_rate, numSlot r.expected_fours,
   numSlot r.expected_sixes⟩

/-- Injection of a bowling record into the dict layer. -/
def toPyBowling (r : BowlingRec) : BowlingDict :=
  ⟨numSlot r.expected_overs, numSlot r.expected_economy,
   numSlot r.expected_wickets, numSlot r.expected_runs_conceded⟩

/-- Injection of a prediction into the dict layer. -/
def toPyPred (p : PredRec) : PredDict :=
  ⟨p.batting.map toPyBatting, p.bowling.map toPyBowling⟩

/-- Injection of a performance sub-record into the dict layer. -/
def toPyPerf (p : PerfRec) : PerfDict :=
  ⟨p.batting.map toPyBatting, p.bowling.map toPyBowling⟩

/-- Injection of a fantasy-team member into the dict layer. -/
def toPyPlayer (p : PlayerRec) : PlayerDict :=
  ⟨p.name, p.performance.map toPyPerf⟩

/-- Injection of a fantasy team into the dict layer. -/
def toPyFantasy (d : FantasyRec) : FantasyDict :=
  ⟨(d.players.map fun l => l.map toPyPlayer), d.captain, d.vice_captain⟩

/-- Injection of a string-keyed numeric dict into the dict layer. -/
def toPyPairs (l : List (String × ℚ)) : List (String × PyVal) :=
  l.map fun p => (p.1, .num p.2)

/-- Injection of a prediction sub-record into the dict layer. -/
def toPyPredSub (p : PredSubRec) : PredSubDict :=
  ⟨p.team_probabilities.map toPyPairs, numSlot p.win_probability⟩

/-- Injection of a match prediction into the dict layer. -/
def toPyMatch (d : MatchPredRec) : MatchPredDict :=
  ⟨d.prediction.map toPyPredSub, d.team_probabilities.map toPyPairs,
   numSlot d.win_probability, d.expected_scores.map toPyPairs⟩

/-! ## Agreement between the dict layer and the pure model -/

theorem pyNum_numSlot (v : Option ℚ) :
    pyNum (dget (numSlot v)) = .ok (v.getD 0) := by
  cases v <;> rfl

theorem numSlot_some (q : ℚ) : numSlot (some q) = some (.num q) := rfl

theorem ebind_ok {α β : Type} (a : α) (k : α → Except String β) :
    (Except.ok a >>= k : Except String β) = k a := rfl

theorem pure_eq_ok {α : Type} (a : α) : (pure a : Except String α) = .ok a := rfl

/-- On an all-numeric record the batting reconciler never raises and
computes the pure model. -/
theorem batting_agree (r : BattingRec) :
    DataConsistency.ensure_batting_consistency (toPyBatting r) =
      .ok (toPyBatting (battingFix r)) := by
  unfold DataConsistency.ensure_batting_consistency battingFix
  by_cases h1 : 0 < r.expected_balls.getD 0 <;>
    by_cases h2 : 0 < r.expected_strike_rate.getD 0 <;>
      simp [toPyBatting, pyNum_numSlot, numSlot_some, ebind_ok, pure_eq_ok, h1, h2]

/-- On an all-numeric record the bowling reconciler never raises and
computes the pure model. -/
theorem bowling_agree (r : BowlingRec) (fmt : String) :
    DataConsistency.ensure_bowling_consistency (toPyBowling r) fmt =
      .ok (toPyBowling (bowlingFix r fmt)) := by
  unfold DataConsistency.ensure_bowling_consistency bowlingFix
  by_cases h1 : 0 < r.expected_overs.getD 0 <;>
    by_cases h2 : 0 < r.expected_economy.getD 0 <;>
      by_cases h3 : 0 < r.expected_runs_conceded.getD 0 <;>
        simp [toPyBowling, pyNum_numSlot, numSlot_some, ebind_ok, pure_eq_ok, h1, h2, h3]

theorem raiseRuns_agree (lo : ℚ) (b : BattingRec) :
    DataConsistency.raiseRuns lo (toPyBatting b) =
      .ok (toPyBatting (raiseRunsQ lo b)) := by
  unfold DataConsistency.raiseRuns raiseRunsQ
  by_cases h : b.expected_runs.getD 0 < lo <;>
    simp [toPyBatting, pyNum_numSlot, numSlot_some, ebind_ok, pure_eq_ok, h]

theorem capRuns_agree (hi : ℚ) (b : BattingRec) :
    DataConsistency.capRuns hi (toPyBatting b) =
      .ok (toPyBatting (capRunsQ hi b)) := by
  unfold DataConsistency.capRuns capRunsQ
  by_cases h : hi < b.expected_runs.getD 0 <;>
    simp [toPyBatting, pyNum_numSlot, numSlot_some, ebind_ok, pure_eq_ok, h]

theorem capWickets_agree (hi : ℚ) (w : BowlingRec) :
    DataConsistency.capWickets hi (toPyBowling w) =
      .ok (toPyBowling (capWicketsQ hi w)) := by
  unfold DataConsistency.capWickets capWicketsQ
  by_cases h : hi < w.expected_wickets.getD 0 <;>
    simp [toPyBowling, pyNum_numSlot, numSlot_some, ebind_ok, pure_eq_ok, h]

theorem raiseWickets_agree (lo : ℚ) (w : BowlingRec) :
    DataConsistency.raiseWickets lo (toPyBowling w) =
      .ok (toPyBowling (raiseWicketsQ lo w)) := by
  unfold DataConsistency.raiseWickets raiseWicketsQ
  by_cases h : w.expected_wickets.getD 0 < lo <;>
    simp [toPyBowling, pyNum_numSlot, numSlot_some, ebind_ok, pure_eq_ok, h]

theorem onBatting_agree (f : BattingDict → Except String BattingDict)
    (fQ : BattingRec → BattingRec)
    (hf : ∀ b, f (toPyBatting b) = .ok (toPyBatting (fQ b))) (p : PredRec) :
    DataConsistency.onBatting f (toPyPred p) =
      .ok (toPyPred (onBattingQ fQ p)) := by
  unfold DataConsistency.onBatting onBattingQ
  cases hb : p.batting <;>
    simp [toPyPred, hf, ebind_ok, pure_eq_ok, hb]

theorem onBowling_agree (f : BowlingDict → Except String BowlingDict)
    (fQ : BowlingRec → BowlingRec)
    (hf : ∀ w, f (toPyBowling w) = .ok (toPyBowling (fQ w))) (p : PredRec) :
    DataConsistency.onBowling f (toPyPred p) =
      .ok (toPyPred (onBowlingQ fQ p)) := by
  unfold DataConsistency.onBowling onBowlingQ
  cases hw : p.bowling <;>
    simp [toPyPred, hf, ebind_ok, pure_eq_ok, hw]

/-- On an all-numeric prediction the role adjuster never raises and
computes the pure model. -/
theorem adjust_agree (pd : PlayerDataDict) (p : PredRec) :
    DataConsistency.ensure_player_role_consistency pd (toPyPred p) =
      .ok (toPyPred (adjustFix pd p)) := by
  unfold DataConsistency.ensure_player_role_consistency adjustFix
  by_cases c1 : strContains (DataConsistency.roleOf pd) "batsman" = true
  · simp only [c1, if_true,
      onBatting_agree _ _ (raiseRuns_agree 20), ebind_ok,
      onBowling_agree _ _ (capWickets_agree (1/2))]
  · by_cases c2 : strContains (DataConsistency.roleOf pd) "bowler" = true
    · simp only [c1, c2, if_true, if_false, Bool.false_eq_true,
        onBatting_agree _ _ (capRuns_agree 15), ebind_ok,
        onBowling_agree _ _ (raiseWickets_agree 1)]
    · by_cases c3 : (strContains (DataConsistency.roleOf pd) "all-rounder" ||
          strContains (DataConsistency.roleOf pd) "all rounder") = true
      · simp only [c1, c2, c3, if_true, if_false, Bool.false_eq_true,
          onBatting_agree _ _ (raiseRuns_agree 15), ebind_ok,
          onBowling_agree _ _ (raiseWickets_agree (1/2))]
      · simp [c1, c2, c3, pure_eq_ok]

theorem fixPlayer_agree (fmt : String) (p : PlayerRec) :
    DataConsistency.fixPlayer fmt (toPyPlayer p) =
      .ok (toPyPlayer (fixPlayerQ fmt p)) := by
  unfold DataConsistency.fixPlayer fixPlayerQ
  cases hp : p.performance with
  | none => simp [toPyPlayer, hp, pure_eq_ok]
  | some perf =>
    cases hb : perf.batting <;> cases hw : perf.bowling <;>
      simp [toPyPlayer, toPyPerf, hp, hb, hw, batting_agree, bowling_agree,
        ebind_ok, pure_eq_ok]

theorem mapME_fixPlayer_agree (fmt : String) (l : List PlayerRec) :
    mapME (DataConsistency.fixPlayer fmt) (l.map toPyPlayer) =
      .ok ((l.map (fixPlayerQ fmt)).map toPyPlayer) := by
  induction l with
  | nil => rfl
  | cons p t ih =>
    simp [mapME, fixPlayer_agree, ih, ebind_ok, pure_eq_ok]

theorem toPyPlayer_name (p : PlayerRec) : (toPyPlayer p).name = p.name := rfl

theorem headI_map_toPy (l : List PlayerRec) :
    (l.map toPyPlayer).headI = toPyPlayer l.headI := by
  cases l <;> rfl

theorem getD_map_toPy (l : List PlayerRec) :
    (l.map toPyPlayer).getD 1 default = toPyPlayer (l.getD 1 default) := by
  match l with
  | [] => rfl
  | [p] => rfl
  | p :: q :: t => rfl

theorem name_map_getD (o : Option PlayerRec) :
    ((o.map toPyPlayer).getD default).name = (o.getD default).name := by
  cases o <;> rfl

/-- On an all-numeric team the fantasy-team reconciler never raises and
computes the pure model. -/
theorem fantasy_agree (d : FantasyRec) (fmt : String) :
    DataConsistency.ensure_fantasy_team_consistency (toPyFantasy d) fmt =
      .ok (toPyFantasy (fantasyFix d fmt)) := by
  unfold DataConsistency.ensure_fantasy_team_consistency fantasyFix
  cases hd : d.players with
  | none => simp [toPyFantasy, hd, mapME, ebind_ok, pure_eq_ok]
  | some l =>
    simp only [toPyFantasy, hd, Option.map_some', Option.getD_some]
    rw [mapME_fixPlayer_agree, ebind_ok]
    simp [List.any_map, Function.comp, toPyPlayer_name, headI_map_toPy,
      getD_map_toPy, List.map_eq_nil_iff, name_map_getD, pure_eq_ok]

theorem toPyPairs_nil : toPyPairs [] = [] := rfl

theorem toPyPairs_cons (p : String × ℚ) (t : List (String × ℚ)) :
    toPyPairs (p :: t) = (p.1, .num p.2) :: toPyPairs t := rfl

theorem dlookup_toPyPairs (l : List (String × ℚ)) (k : String) (q : ℚ) :
    dlookup (toPyPairs l) k (.num q) = .num (dlookup l k q) := by
  induction l with
  | nil => rfl
  | cons p t ih =>
    simp only [toPyPairs] at ih ⊢
    simp only [List.map_cons, dlookup]
    by_cases h : p.1 = k <;> simp [h, ih]

theorem dset_toPyPairs (l : List (String × ℚ)) (k : String) (q : ℚ) :
    dset (toPyPairs l) k (.num q) = toPyPairs (dset l k q) := by
  induction l with
  | nil => rfl
  | cons p t ih =>
    simp only [toPyPairs, dset] at ih ⊢
    simp only [List.map_cons]
    by_cases h : p.1 = k <;> simp [h, ih]

theorem clampScore_agree (fmt : String) (s : ℚ) :
    DataConsistency.clampScoreE fmt (.num s) = .ok (.num (clampScoreQ fmt s)) := by
  unfold DataConsistency.clampScoreE clampScoreQ
  by_cases h1 : pyUpper fmt = "T20I" <;> by_cases h2 : pyUpper fmt = "ODI" <;>
    simp [h1, h2, pyNum, ebind_ok, pure_eq_ok]

theorem scores_agree (fmt : String) (l : List (String × ℚ)) :
    mapME (fun p => do
      let v₁ ← DataConsistency.clampScoreE fmt p.2
      Except.ok (p.1, v₁)) (l.map fun p => (p.1, PyVal.num p.2)) =
      .ok (l.map fun p => (p.1, PyVal.num (clampScoreQ fmt p.2))) := by
  induction l with
  | nil => rfl
  | cons p t ih =>
    simp only [List.map_cons, mapME, clampScore_agree, ih, ebind_ok, pure_eq_ok]

/-- On an all-numeric match prediction the match reconciler never raises
and computes the pure model. -/
theorem match_agree (d : MatchPredRec) (fmt : String) :
    DataConsistency.ensure_match_prediction_consistency (toPyMatch d) fmt =
      .ok (toPyMatch (matchFix d fmt)) := by
  unfold DataConsistency.ensure_match_prediction_consistency matchFix
  cases hp : d.prediction with
  | none =>
    cases hs : d.expected_scores <;>
      simp [toPyMatch, toPyPairs, hp, hs, pure_eq_ok, ebind_ok, scores_agree,
        mapME, Function.comp]
  | some pr =>
    cases hq : pr.team_probabilities with
    | none =>
      cases hs : d.expected_scores <;>
        simp [toPyMatch, toPyPredSub, toPyPairs, hp, hq, hs, pure_eq_ok,
          ebind_ok, scores_agree, mapME, Function.comp]
    | some probs =>
      match probs with
      | [] =>
        cases hs : d.expected_scores <;>
          simp [toPyMatch, toPyPredSub, toPyPairs, hp, hq, hs, pure_eq_ok,
            ebind_ok, scores_agree, mapME, Function.comp]
      | [(t1, q1)] =>
        cases hs : d.expected_scores <;>
          simp [toPyMatch, toPyPredSub, toPyPairs, hp, hq, hs, pure_eq_ok,
            ebind_ok, scores_agree, mapME, Function.comp]
      | (t1, q1) :: (t2, q2) :: (t3, q3) :: rest =>
        cases hs : d.expected_scores <;>
          simp [toPyMatch, toPyPredSub, toPyPairs, hp, hq, hs, pure_eq_ok,
            ebind_ok, scores_agree, mapME, Function.comp]
      | [(t1, q1), (t2, q2)] =>
        rcases eq_or_ne t1 t2 with e | e
        · subst e
          cases hs : d.expected_scores <;>
            simp [toPyMatch, toPyPredSub, toPyPairs, hp, hq, hs, pure_eq_ok,
              ebind_ok, scores_agree, mapME, dlookup, dset, pyNum,
              Function.comp, numSlot_some]
        · cases hs : d.expected_scores <;>
            simp [toPyMatch, toPyPredSub, toPyPairs, hp, hq, hs, e, e.symm,
              pure_eq_ok, ebind_ok, scores_agree, mapME, dlookup, dset, pyNum,
              Function.comp, numSlot_some]

/-! ## Arithmetic facts about the rounding -/

theorem floor_le_roundHalfEven (x : ℚ) : ⌊x⌋ ≤ roundHalfEven x := by
  unfold roundHalfEven
  split_ifs <;> omega

theorem roundHalfEven_le_floor_add_one (x : ℚ) : roundHalfEven x ≤ ⌊x⌋ + 1 := by
  unfold roundHalfEven
  split_ifs <;> omega

theorem roundHalfEven_le (x : ℚ) : (roundHalfEven x : ℚ) ≤ x + 1/2 := by
  unfold roundHalfEven
  have h1 := Int.floor_le x
  have h2 := Int.lt_floor_add_one x
  split_ifs with c1 c2 c3 <;> push_cast <;> linarith

theorem le_roundHalfEven (x : ℚ) : x - 1/2 ≤ (roundHalfEven x : ℚ) := by
  unfold roundHalfEven
  have h1 := Int.floor_le x
  have h2 := Int.lt_floor_add_one x
  split_ifs with c1 c2 c3 <;> push_cast <;> linarith

theorem pyRound_le (x : ℚ) : pyRound x 1 ≤ x + 1/20 := by
  unfold pyRound
  rw [div_le_iff₀ (by norm_num : (0:ℚ) < 10 ^ 1)]
  have := roundHalfEven_le (x * 10 ^ 1)
  linarith

theorem le_pyRound (x : ℚ) : x - 1/20 ≤ pyRound x 1 := by
  unfold pyRound
  rw [le_div_iff₀ (by norm_num : (0:ℚ) < 10 ^ 1)]
  have := le_roundHalfEven (x * 10 ^ 1)
  linarith

theorem pyRound_nonneg (x : ℚ) (n : ℕ) (h : 0 ≤ x) : 0 ≤ pyRound x n := by
  unfold pyRound
  apply div_nonneg _ (by positivity)
  have hf : (0:ℤ) ≤ ⌊x * 10 ^ n⌋ := Int.floor_nonneg.mpr (by positivity)
  have := floor_le_roundHalfEven (x * 10 ^ n)
  exact_mod_cast le_trans hf this

theorem one_le_pyRound (x : ℚ) (h : 1 ≤ x) : 1 ≤ pyRound x 1 := by
  unfold pyRound
  rw [le_div_iff₀ (by norm_num : (0:ℚ) < 10 ^ 1)]
  have hf : (10:ℤ) ≤ ⌊x * 10 ^ 1⌋ := by
    rw [Int.le_floor]
    push_cast
    linarith
  have := floor_le_roundHalfEven (x * 10 ^ 1)
  have : (10:ℚ) ≤ (roundHalfEven (x * 10 ^ 1) : ℚ) := by exact_mod_cast le_trans hf this
  linarith

theorem abs_pyRound_sub_le (x : ℚ) : |pyRound x 1 - x| ≤ 1/20 := by
  rw [abs_le]
  constructor
  · have := le_pyRound x
    linarith
  · have := pyRound_le x
    linarith

/-! ## Claims about the batting and bowling reconcilers -/

/-- C8: for every batting record (negative inputs included) the reconciled
record has no negative field and its expected_balls is at least 1, and for
every bowling record and format the reconciled record has no negative
field. -/
theorem reconciled_records_nonneg :
    (∀ b : BattingRec,
      0 ≤ (battingFix b).expected_runs.getD 0 ∧
      1 ≤ (battingFix b).expected_balls.getD 0 ∧
      0 ≤ (battingFix b).expected_strike_rate.getD 0 ∧
      0 ≤ (battingFix b).expected_fours.getD 0 ∧
      0 ≤ (battingFix b).expected_sixes.getD 0) ∧
    (∀ (w : BowlingRec) (fmt : String),
      0 ≤ (bowlingFix w fmt).expected_overs.getD 0 ∧
      0 ≤ (bowlingFix w fmt).expected_economy.getD 0 ∧
      0 ≤ (bowlingFix w fmt).expected_wickets.getD 0 ∧
      0 ≤ (bowlingFix w fmt).expected_runs_conceded.getD 0) := by
  constructor
  · intro b
    unfold battingFix
    simp only [Option.getD_some]
    exact ⟨pyRound_nonneg _ _ (le_max_left 0 _),
      one_le_pyRound _ (le_max_left 1 _),
      pyRound_nonneg _ _ (le_max_left 0 _),
      pyRound_nonneg _ _ (le_max_left 0 _),
      pyRound_nonneg _ _ (le_max_left 0 _)⟩
  · intro w fmt
    unfold bowlingFix
    simp only [Option.getD_some]
    exact ⟨pyRound_nonneg _ _ (le_max_left 0 _),
      pyRound_nonneg _ _ (le_max_left 0 _),
      pyRound_nonneg _ _ (le_max_left 0 _),
      pyRound_nonneg _ _ (le_max_left 0 _)⟩

/-- Before the final rounding, and given non-negative fours and sixes, the
clamped boundary runs do not exceed the clamped total runs: the invariant
that the scaling step establishes. -/
theorem boundary_core (R f₀ s₀ : ℚ) (hf : 0 ≤ f₀) (hs : 0 ≤ s₀) :
    4 * max 0 ((if R < f₀ * 4 + s₀ * 6 then
        (f₀ * (R / max 1 (f₀ * 4 + s₀ * 6)), s₀ * (R / max 1 (f₀ * 4 + s₀ * 6)))
      else (f₀, s₀)).1) +
    6 * max 0 ((if R < f₀ * 4 + s₀ * 6 then
        (f₀ * (R / max 1 (f₀ * 4 + s₀ * 6)), s₀ * (R / max 1 (f₀ * 4 + s₀ * 6)))
      else (f₀, s₀)).2) ≤ max 0 R := by
  by_cases h : R < f₀ * 4 + s₀ * 6
  · simp only [h, if_true]
    have hm : (0:ℚ) < max 1 (f₀ * 4 + s₀ * 6) :=
      lt_of_lt_of_le zero_lt_one (le_max_left 1 _)
    rcases le_or_lt R 0 with hR | hR
    · have hscale : R / max 1 (f₀ * 4 + s₀ * 6) ≤ 0 :=
        div_nonpos_iff.mpr (Or.inr ⟨hR, hm.le⟩)
      have h4 : f₀ * (R / max 1 (f₀ * 4 + s₀ * 6)) ≤ 0 :=
        mul_nonpos_iff.mpr (Or.inl ⟨hf, hscale⟩)
      have h6 : s₀ * (R / max 1 (f₀ * 4 + s₀ * 6)) ≤ 0 :=
        mul_nonpos_iff.mpr (Or.inl ⟨hs, hscale⟩)
      rw [max_eq_left h4, max_eq_left h6]
      simp only [mul_zero, add_zero]
      exact le_max_left 0 R
    · have hBR : 0 < f₀ * 4 + s₀ * 6 := lt_trans hR h
      have hscale : 0 ≤ R / max 1 (f₀ * 4 + s₀ * 6) := (div_pos hR hm).le
      rw [max_eq_right (mul_nonneg hf hscale),
        max_eq_right (mul_nonneg hs hscale), max_eq_right hR.le]
      rcases le_or_lt 1 (f₀ * 4 + s₀ * 6) with hB1 | hB1
      · rw [max_eq_right hB1]
        have e : 4 * (f₀ * (R / (f₀ * 4 + s₀ * 6))) +
            6 * (s₀ * (R / (f₀ * 4 + s₀ * 6))) =
            R / (f₀ * 4 + s₀ * 6) * (f₀ * 4 + s₀ * 6) := by ring
        rw [e, div_mul_cancel₀ R (ne_of_gt hBR)]
      · rw [max_eq_left hB1.le, div_one]
        nlinarith [mul_pos (sub_pos.mpr hB1) hR]
  · simp only [h, if_false]
    rw [max_eq_right hf, max_eq_right hs]
    have hB0 : (0:ℚ) ≤ f₀ * 4 + s₀ * 6 := by positivity
    have hR : 0 ≤ R := le_trans hB0 (not_lt.mp h)
    rw [max_eq_right hR]
    linarith [not_lt.mp h]

/-- C1 counterexample: for runs 10, fours 4, sixes 1 the scaled and rounded
boundaries are 1.8 and 0.5, and 1.8*4 + 0.5*6 = 10.2 exceeds the reconciled
runs 10 by 0.2, far beyond the claimed 1e-6 tolerance. -/
theorem boundary_tolerance_fails :
    ¬((battingFix ⟨some 10, none, none, some 4, some 1⟩).expected_fours.getD 0 * 4 +
      (battingFix ⟨some 10, none, none, some 4, some 1⟩).expected_sixes.getD 0 * 6 ≤
      (battingFix ⟨some 10, none, none, some 4, some 1⟩).expected_runs.getD 0 +
        1/1000000) := by
  norm_num [battingFix, pyRound, roundHalfEven]

/-- C1 (amended): for every batting record with non-negative fours and
sixes, the reconciled record satisfies the boundary-runs invariant up to
0.55 — the invariant holds exactly after scaling and before rounding, and
the final one-decimal rounding can push it out by at most 0.55 (not by at
most 1e-6 as claimed). -/
theorem boundary_invariant_after_rounding (b : BattingRec)
    (hf : 0 ≤ b.expected_fours.getD 0) (hs : 0 ≤ b.expected_sixes.getD 0) :
    (battingFix b).expected_fours.getD 0 * 4 +
      (battingFix b).expected_sixes.getD 0 * 6 ≤
      (battingFix b).expected_runs.getD 0 + 11/20 := by
  unfold battingFix
  simp only [Option.getD_some]
  have hcore := boundary_core (b.expected_runs.getD 0) (b.expected_fours.getD 0)
    (b.expected_sixes.getD 0) hf hs
  have h1 := pyRound_le (max 0 ((if b.expected_runs.getD 0 <
      b.expected_fours.getD 0 * 4 + b.expected_sixes.getD 0 * 6 then
      (b.expected_fours.getD 0 * (b.expected_runs.getD 0 /
        max 1 (b.expected_fours.getD 0 * 4 + b.expected_sixes.getD 0 * 6)),
       b.expected_sixes.getD 0 * (b.expected_runs.getD 0 /
        max 1 (b.expected_fours.getD 0 * 4 + b.expected_sixes.getD 0 * 6)))
    else (b.expected_fours.getD 0, b.expected_sixes.getD 0)).1))
  have h2 := pyRound_le (max 0 ((if b.expected_runs.getD 0 <
      b.expected_fours.getD 0 * 4 + b.expected_sixes.getD 0 * 6 then
      (b.expected_fours.getD 0 * (b.expected_runs.getD 0 /
        max 1 (b.expected_fours.getD 0 * 4 + b.expected_sixes.getD 0 * 6)),
       b.expected_sixes.getD 0 * (b.expected_runs.getD 0 /
        max 1 (b.expected_fours.getD 0 * 4 + b.expected_sixes.getD 0 * 6)))
    else (b.expected_fours.getD 0, b.expected_sixes.getD 0)).2))
  have h3 := le_pyRound (max 0 (b.expected_runs.getD 0))
  linarith

/-- C1 witness: the amended bound applied at runs 10, fours 4, sixes 1. -/
theorem boundary_invariant_after_rounding_witness :
    (battingFix ⟨some 10, none, none, some 4, some 1⟩).expected_fours.getD 0 * 4 +
      (battingFix ⟨some 10, none, none, some 4, some 1⟩).expected_sixes.getD 0 * 6 ≤
      (battingFix ⟨some 10, none, none, some 4, some 1⟩).expected_runs.getD 0 +
        11/20 :=
  boundary_invariant_after_rounding ⟨some 10, none, none, some 4, some 1⟩
    (by norm_num) (by norm_num)

/-- C3 counterexample: for input runs 5 with no balls and no strike rate,
the reconciled record has expected_balls 1 (positive) and
expected_strike_rate 0, while runs/balls*100 computed from the reconciled
fields is 500; the claimed near-equality fails for records whose balls
count is positive only after reconciliation. -/
theorem strike_rate_after_reconciliation_fails :
    0 < (battingFix ⟨some 5, none, none, none, none⟩).expected_balls.getD 0 ∧
    (battingFix ⟨some 5, none, none, none, none⟩).expected_strike_rate.getD 0 = 0 ∧
    (battingFix ⟨some 5, none, none, none, none⟩).expected_runs.getD 0 /
      (battingFix ⟨some 5, none, none, none, none⟩).expected_balls.getD 0 * 100 =
      500 := by
  norm_num [battingFix, pyRound, roundHalfEven]

/-- C3 (amended): for every batting record whose input expected_balls is
positive and whose input expected_runs is non-negative, the reconciled
strike rate is exactly the one-decimal rounding of input runs / input
balls × 100, hence within 0.05 of it; the relation is to the authoritative
pre-rounding runs and balls, not to the rounded stored fields. -/
theorem strike_rate_recomputed (b : BattingRec)
    (hb : 0 < b.expected_balls.getD 0) (hr : 0 ≤ b.expected_runs.getD 0) :
    (battingFix b).expected_strike_rate.getD 0 =
      pyRound (b.expected_runs.getD 0 / b.expected_balls.getD 0 * 100) 1 ∧
    |(battingFix b).expected_strike_rate.getD 0 -
      b.expected_runs.getD 0 / b.expected_balls.getD 0 * 100| ≤ 1/20 := by
  have hsr : 0 ≤ b.expected_runs.getD 0 / b.expected_balls.getD 0 * 100 :=
    mul_nonneg (div_nonneg hr hb.le) (by norm_num)
  have heq : (battingFix b).expected_strike_rate.getD 0 =
      pyRound (b.expected_runs.getD 0 / b.expected_balls.getD 0 * 100) 1 := by
    unfold battingFix
    simp only [Option.getD_some, if_pos hb]
    rw [max_eq_right hsr]
  refine ⟨heq, ?_⟩
  rw [heq]
  exact abs_pyRound_sub_le _

/-- C3 witness: the amended statement at runs 10, balls 20. -/
theorem strike_rate_recomputed_witness :
    (battingFix ⟨some 10, some 20, none, none, none⟩).expected_strike_rate.getD 0 =
      pyRound ((10:ℚ) / 20 * 100) 1 ∧
    |(battingFix ⟨some 10, some 20, none, none, none⟩).expected_strike_rate.getD 0 -
      (10:ℚ) / 20 * 100| ≤ 1/20 := by
  have h := strike_rate_recomputed ⟨some 10, some 20, none, none, none⟩
    (by norm_num) (by norm_num)
  simpa using h

/-- C5 counterexample: for input overs 8 and economy 6 under T20I, the
reconciled record has overs 4 and economy 6 (both positive) but
runs_conceded 48 = 6*8, computed before the over cap; it differs from
economy*overs = 24 by 24, far beyond one-decimal rounding. -/
theorem runs_conceded_cap_mismatch :
    0 < (bowlingFix ⟨some 8, some 6, none, none⟩ "T20I").expected_overs.getD 0 ∧
    0 < (bowlingFix ⟨some 8, some 6, none, none⟩ "T20I").expected_economy.getD 0 ∧
    ¬(|(bowlingFix ⟨some 8, some 6, none, none⟩ "T20I").expected_runs_conceded.getD 0 -
        (bowlingFix ⟨some 8, some 6, none, none⟩ "T20I").expected_economy.getD 0 *
        (bowlingFix ⟨some 8, some 6, none, none⟩ "T20I").expected_overs.getD 0| ≤ 1) := by
  norm_num [bowlingFix, pyRound, roundHalfEven,
    (by decide : pyUpper "T20I" = "T20I")]

/-- C5 (amended): for every bowling record with positive input overs and
economy, the reconciled expected_runs_conceded is the one-decimal rounding
of input economy × input overs — the product is taken before the format
over cap and before rounding, so the stored product relation fails exactly
when the cap reduces overs. -/
theorem runs_conceded_recomputed (w : BowlingRec) (fmt : String)
    (ho : 0 < w.expected_overs.getD 0) (he : 0 < w.expected_economy.getD 0) :
    (bowlingFix w fmt).expected_runs_conceded.getD 0 =
      pyRound (w.expected_economy.getD 0 * w.expected_overs.getD 0) 1 := by
  unfold bowlingFix
  simp only [Option.getD_some, if_pos ho, if_pos he]
  rw [max_eq_right (mul_nonneg he.le ho.le)]

/-- C5 witness: the amended statement at overs 3, economy 6 under T20I. -/
theorem runs_conceded_recomputed_witness :
    (bowlingFix ⟨some 3, some 6, none, none⟩ "T20I").expected_runs_conceded.getD 0 =
      pyRound ((6:ℚ) * 3) 1 := by
  have h := runs_conceded_recomputed ⟨some 3, some 6, none, none⟩ "T20I"
    (by norm_num) (by norm_num)
  simpa using h

/-- An already-consistent batting record: all five fields present, clamped
values in range, boundary runs within total runs, strike rate the rounded
recomputation from runs and balls, and every field already at one-decimal
precision. -/
def BattingConsistent (b : BattingRec) : Prop :=
  b.expected_runs.isSome ∧ b.expected_balls.isSome ∧
  b.expected_strike_rate.isSome ∧ b.expected_fours.isSome ∧
  b.expected_sixes.isSome ∧
  0 ≤ b.expected_runs.getD 0 ∧ 1 ≤ b.expected_balls.getD 0 ∧
  0 ≤ b.expected_fours.getD 0 ∧ 0 ≤ b.expected_sixes.getD 0 ∧
  b.expected_fours.getD 0 * 4 + b.expected_sixes.getD 0 * 6 ≤
    b.expected_runs.getD 0 ∧
  b.expected_strike_rate.getD 0 =
    pyRound (b.expected_runs.getD 0 / b.expected_balls.getD 0 * 100) 1 ∧
  pyRound (b.expected_runs.getD 0) 1 = b.expected_runs.getD 0 ∧
  pyRound (b.expected_balls.getD 0) 1 = b.expected_balls.getD 0 ∧
  pyRound (b.expected_fours.getD 0) 1 = b.expected_fours.getD 0 ∧
  pyRound (b.expected_sixes.getD 0) 1 = b.expected_sixes.getD 0

/-- The batting reconciler fixes every already-consistent record. -/
theorem battingFix_fixed (b : BattingRec) (h : BattingConsistent b) :
    battingFix b = b := by
  obtain ⟨i1, i2, i3, i4, i5, hr, hb, hf, hx, hbd, hsr, rr, rb, rf, rx⟩ := h
  obtain ⟨r, er⟩ := Option.isSome_iff_exists.mp i1
  obtain ⟨bl, eb⟩ := Option.isSome_iff_exists.mp i2
  obtain ⟨sr, es⟩ := Option.isSome_iff_exists.mp i3
  obtain ⟨f, ef⟩ := Option.isSome_iff_exists.mp i4
  obtain ⟨x, ex⟩ := Option.isSome_iff_exists.mp i5
  rcases b with ⟨o1, o2, o3, o4, o5⟩
  simp only at er eb es ef ex
  subst er eb es ef ex
  simp only [Option.getD_some] at hr hb hf hx hbd hsr rr rb rf rx
  unfold battingFix
  simp only [Option.getD_some]
  rw [if_pos (by linarith : (0:ℚ) < bl), if_neg (not_lt.mpr hbd)]
  have hsr0 : 0 ≤ r / bl * 100 :=
    mul_nonneg (div_nonneg hr (by linarith)) (by norm_num)
  rw [max_eq_right hr, max_eq_right (by linarith : (1:ℚ) ≤ bl),
    max_eq_right hsr0, max_eq_right hf, max_eq_right hx,
    rr, rb, rf, rx, ← hsr]

/-- C9: applying the batting reconciler twice to an already-consistent
record yields exactly the result of applying it once. -/
theorem battingFix_idempotent (b : BattingRec) (h : BattingConsistent b) :
    battingFix (battingFix b) = battingFix b := by
  rw [battingFix_fixed b h, battingFix_fixed b h]

/-- C9 witness: idempotence at the consistent record
runs 10, balls 20, strike rate 50, fours 1, sixes 1. -/
theorem battingFix_idempotent_witness :
    battingFix (battingFix ⟨some 10, some 20, some 50, some 1, some 1⟩) =
      battingFix ⟨some 10, some 20, some 50, some 1, some 1⟩ :=
  battingFix_idempotent ⟨some 10, some 20, some 50, some 1, some 1⟩
    (by norm_num [BattingConsistent, pyRound, roundHalfEven])

/-! ## Claims about totality, the role adjuster and the match aggregator -/

/-- C2 counterexample: a batting record whose expected_balls holds a
non-numeric value makes reconcile_batting raise TypeError at the
`balls > 0` comparison instead of treating the field as 0. -/
theorem reconcile_raises_on_non_numeric :
    DataConsistency.ensure_batting_consistency
      ⟨some (.num 10), some .nonNum, none, none, none⟩ = .error "TypeError" := rfl

/-- C2 (amended): all five exposed functions are total on records with any
subset of fields absent, as long as every present numeric field holds a
number — each returns ok of the pure reconciliation; a present non-numeric
value, however, raises TypeError (see the counterexample). -/
theorem total_on_numeric_records :
    (∀ b : BattingRec, DataConsistency.ensure_batting_consistency
      (toPyBatting b) = .ok (toPyBatting (battingFix b))) ∧
    (∀ (w : BowlingRec) (fmt : String), DataConsistency.ensure_bowling_consistency
      (toPyBowling w) fmt = .ok (toPyBowling (bowlingFix w fmt))) ∧
    (∀ (pd : PlayerDataDict) (p : PredRec),
      DataConsistency.ensure_player_role_consistency pd (toPyPred p) =
        .ok (toPyPred (adjustFix pd p))) ∧
    (∀ (d : FantasyRec) (fmt : String),
      DataConsistency.ensure_fantasy_team_consistency (toPyFantasy d) fmt =
        .ok (toPyFantasy (fantasyFix d fmt))) ∧
    (∀ (d : MatchPredRec) (fmt : String),
      DataConsistency.ensure_match_prediction_consistency (toPyMatch d) fmt =
        .ok (toPyMatch (matchFix d fmt))) :=
  ⟨batting_agree, bowling_agree, adjust_agree, fantasy_agree, match_agree⟩

/-- C4 counterexample: a player record whose role sits at top level (not
under personalInformation) is classified as the empty role, so a
prediction with bowling expected_wickets 2 comes back untouched with
2 > 0.5, contradicting the claimed read location. -/
theorem role_read_from_top_level_fails :
    adjustFix ⟨none, some "Batsman"⟩ ⟨none, some ⟨none, none, some 2, none⟩⟩ =
      ⟨none, some ⟨none, none, some 2, none⟩⟩ ∧
    ¬((2:ℚ) ≤ 1/2) := by
  constructor
  · simp [adjustFix,
      (by decide : strContains
        (DataConsistency.roleOf ⟨none, some "Batsman"⟩) "batsman" = false),
      (by decide : strContains
        (DataConsistency.roleOf ⟨none, some "Batsman"⟩) "bowler" = false),
      (by decide : strContains
        (DataConsistency.roleOf ⟨none, some "Batsman"⟩) "all-rounder" = false),
      (by decide : strContains
        (DataConsistency.roleOf ⟨none, some "Batsman"⟩) "all rounder" = false)]
  · norm_num

/-- C4 (amended): the role is read from personalInformation.role (there the
Batsman example does yield wickets ≤ 0.5), the top-level role slot is
ignored, team_probabilities is read from the prediction sub-dict (where the
two-entry example sets win_probability 0.75 inside prediction), and a
record carrying team_probabilities only at top level is returned
unchanged. -/
theorem fields_read_under_nested_keys :
    ((adjustFix ⟨some ⟨some "Batsman"⟩, none⟩
        ⟨none, some ⟨none, none, some 2, none⟩⟩).bowling.map
          (fun w => w.expected_wickets.getD 0) = some (1/2) ∧
      ((1:ℚ)/2 ≤ 1/2)) ∧
    (adjustFix ⟨none, some "Batsman"⟩ ⟨none, some ⟨none, none, some 2, none⟩⟩ =
      ⟨none, some ⟨none, none, some 2, none⟩⟩) ∧
    ((matchFix ⟨some ⟨some [("A", 3), ("B", 1)], none⟩, none, none, none⟩
        "T20I").prediction.map (fun pr => pr.win_probability) =
      some (some (3/4))) ∧
    (matchFix ⟨none, some [("A", 3), ("B", 1)], none, none⟩ "T20I" =
      ⟨none, some [("A", 3), ("B", 1)], none, none⟩) := by
  refine ⟨⟨?_, by norm_num⟩, ?_, ?_, ?_⟩
  · simp [adjustFix, onBowlingQ, onBattingQ, capWicketsQ,
      (by decide : strContains
        (DataConsistency.roleOf ⟨some ⟨some "Batsman"⟩, none⟩) "batsman" = true)]
    norm_num
  · simp [adjustFix,
      (by decide : strContains
        (DataConsistency.roleOf ⟨none, some "Batsman"⟩) "batsman" = false),
      (by decide : strContains
        (DataConsistency.roleOf ⟨none, some "Batsman"⟩) "bowler" = false),
      (by decide : strContains
        (DataConsistency.roleOf ⟨none, some "Batsman"⟩) "all-rounder" = false),
      (by decide : strContains
        (DataConsistency.roleOf ⟨none, some "Batsman"⟩) "all rounder" = false)]
  · norm_num [matchFix, dlookup, dset, pyRound, roundHalfEven,
      (by decide : ¬("A" : String) = "B"), (by decide : ¬("B" : String) = "A")]
  · norm_num [matchFix]

theorem onBattingQ_batting (f : BattingRec → BattingRec) (p : PredRec) :
    (onBattingQ f p).batting = p.batting.map f := by
  cases h : p.batting <;> simp [onBattingQ, h]

theorem onBattingQ_bowling (f : BattingRec → BattingRec) (p : PredRec) :
    (onBattingQ f p).bowling = p.bowling := by
  cases h : p.batting <;> simp [onBattingQ, h]

theorem onBowlingQ_batting (f : BowlingRec → BowlingRec) (p : PredRec) :
    (onBowlingQ f p).batting = p.batting := by
  cases h : p.bowling <;> simp [onBowlingQ, h]

theorem onBowlingQ_bowling (f : BowlingRec → BowlingRec) (p : PredRec) :
    (onBowlingQ f p).bowling = p.bowling.map f := by
  cases h : p.bowling <;> simp [onBowlingQ, h]

theorem raiseRunsQ_val (lo : ℚ) (b : BattingRec) :
    (raiseRunsQ lo b).expected_runs.getD 0 = max (b.expected_runs.getD 0) lo := by
  unfold raiseRunsQ
  by_cases h : b.expected_runs.getD 0 < lo
  · simp [h, max_eq_right h.le]
  · simp [h, max_eq_left (not_lt.mp h)]

theorem capRunsQ_val (hi : ℚ) (b : BattingRec) :
    (capRunsQ hi b).expected_runs.getD 0 = min (b.expected_runs.getD 0) hi := by
  unfold capRunsQ
  by_cases h : hi < b.expected_runs.getD 0
  · simp [h, min_eq_right h.le]
  · simp [h, min_eq_left (not_lt.mp h)]

theorem capWicketsQ_val (hi : ℚ) (w : BowlingRec) :
    (capWicketsQ hi w).expected_wickets.getD 0 =
      min (w.expected_wickets.getD 0) hi := by
  unfold capWicketsQ
  by_cases h : hi < w.expected_wickets.getD 0
  · simp [h, min_eq_right h.le]
  · simp [h, min_eq_left (not_lt.mp h)]

theorem raiseWicketsQ_val (lo : ℚ) (w : BowlingRec) :
    (raiseWicketsQ lo w).expected_wickets.getD 0 =
      max (w.expected_wickets.getD 0) lo := by
  unfold raiseWicketsQ
  by_cases h : w.expected_wickets.getD 0 < lo
  · simp [h, max_eq_right h.le]
  · simp [h, max_eq_left (not_lt.mp h)]

/-- C7: adjust_for_role classifies the lowered role string by substring
match with precedence batsman, bowler, all-rounder / all rounder, first
match winning, and applies the policy only to present sub-records:
batsman floors expected_runs at 20 and caps expected_wickets at 0.5,
bowler caps expected_runs at 15 and floors expected_wickets at 1,
all-rounder floors expected_runs at 15 and expected_wickets at 0.5, and no
match leaves the prediction unchanged.  Absent sub-records stay absent. -/
theorem role_policy (pd : PlayerDataDict) (p : PredRec) :
    (strContains (DataConsistency.roleOf pd) "batsman" = true →
      ((adjustFix pd p).batting.map (fun b => b.expected_runs.getD 0) =
        p.batting.map (fun b => max (b.expected_runs.getD 0) 20)) ∧
      ((adjustFix pd p).bowling.map (fun w => w.expected_wickets.getD 0) =
        p.bowling.map (fun w => min (w.expected_wickets.getD 0) (1/2)))) ∧
    (strContains (DataConsistency.roleOf pd) "batsman" = false →
      strContains (DataConsistency.roleOf pd) "bowler" = true →
      ((adjustFix pd p).batting.map (fun b => b.expected_runs.getD 0) =
        p.batting.map (fun b => min (b.expected_runs.getD 0) 15)) ∧
      ((adjustFix pd p).bowling.map (fun w => w.expected_wickets.getD 0) =
        p.bowling.map (fun w => max (w.expected_wickets.getD 0) 1))) ∧
    (strContains (DataConsistency.roleOf pd) "batsman" = false →
      strContains (DataConsistency.roleOf pd) "bowler" = false →
      (strContains (DataConsistency.roleOf pd) "all-rounder" ||
        strContains (DataConsistency.roleOf pd) "all rounder") = true →
      ((adjustFix pd p).batting.map (fun b => b.expected_runs.getD 0) =
        p.batting.map (fun b => max (b.expected_runs.getD 0) 15)) ∧
      ((adjustFix pd p).bowling.map (fun w => w.expected_wickets.getD 0) =
        p.bowling.map (fun w => max (w.expected_wickets.getD 0) (1/2)))) ∧
    (strContains (DataConsistency.roleOf pd) "batsman" = false →
      strContains (DataConsistency.roleOf pd) "bowler" = false →
      (strContains (DataConsistency.roleOf pd) "all-rounder" ||
        strContains (DataConsistency.roleOf pd) "all rounder") = false →
      adjustFix pd p = p) := by
  refine ⟨fun h1 => ⟨?_, ?_⟩, fun h1 h2 => ⟨?_, ?_⟩,
    fun h1 h2 h3 => ⟨?_, ?_⟩, fun h1 h2 h3 => ?_⟩
  · cases hb : p.batting <;>
      simp [adjustFix, h1, onBowlingQ_batting, onBattingQ_batting, hb,
        raiseRunsQ_val]
  · cases hw : p.bowling <;>
      simp [adjustFix, h1, onBowlingQ_bowling, onBattingQ_bowling, hw,
        capWicketsQ_val]
  · cases hb : p.batting <;>
      simp [adjustFix, h1, h2, onBowlingQ_batting, onBattingQ_batting, hb,
        capRunsQ_val]
  · cases hw : p.bowling <;>
      simp [adjustFix, h1, h2, onBowlingQ_bowling, onBattingQ_bowling, hw,
        raiseWicketsQ_val]
  · cases hb : p.batting <;>
      simp [adjustFix, h1, h2, h3, onBowlingQ_batting, onBattingQ_batting, hb,
        raiseRunsQ_val]
  · cases hw : p.bowling <;>
      simp [adjustFix, h1, h2, h3, onBowlingQ_bowling, onBattingQ_bowling, hw,
        raiseWicketsQ_val]
  · simp [adjustFix, h1, h2, h3]

/-- C7 witness: the batsman clause at role Batsman, batting expected_runs
30, bowling expected_wickets 2. -/
theorem role_policy_witness :
    ((adjustFix ⟨some ⟨some "Batsman"⟩, none⟩
        ⟨some ⟨some 30, none, none, none, none⟩,
         some ⟨none, none, some 2, none⟩⟩).batting.map
          (fun b => b.expected_runs.getD 0) =
      (some (⟨some 30, none, none, none, none⟩ : BattingRec)).map
        (fun b => max (b.expected_runs.getD 0) 20)) ∧
    ((adjustFix ⟨some ⟨some "Batsman"⟩, none⟩
        ⟨some ⟨some 30, none, none, none, none⟩,
         some ⟨none, none, some 2, none⟩⟩).bowling.map
          (fun w => w.expected_wickets.getD 0) =
      (some (⟨none, none, some 2, none⟩ : BowlingRec)).map
        (fun w => min (w.expected_wickets.getD 0) (1/2))) :=
  (role_policy ⟨some ⟨some "Batsman"⟩, none⟩
    ⟨some ⟨some 30, none, none, none, none⟩,
     some ⟨none, none, some 2, none⟩⟩).1 (by decide)

/-- C6: with exactly two (distinct) teams, reconcile_match_prediction
replaces the probabilities by the three-decimal roundings of p1/(p1+p2)
and p2/(p1+p2) (0.5/0.5 when p1+p2 is not positive) and sets
win_probability to the rounded maximum of the normalized pair; with any
other number of entries the probabilities and win_probability are left
untouched. -/
theorem probability_normalization :
    (∀ (t1 t2 : String) (q1 q2 : ℚ) (w : Option ℚ)
        (tp : Option (List (String × ℚ))) (wp : Option ℚ)
        (es : Option (List (String × ℚ))) (fmt : String), t1 ≠ t2 →
      (matchFix ⟨some ⟨some [(t1, q1), (t2, q2)], w⟩, tp, wp, es⟩ fmt).prediction =
        some ⟨some [(t1, pyRound ((if 0 < q1 + q2 then
                (q1 / (q1 + q2), q2 / (q1 + q2)) else (1/2, 1/2)).1) 3),
              (t2, pyRound ((if 0 < q1 + q2 then
                (q1 / (q1 + q2), q2 / (q1 + q2)) else (1/2, 1/2)).2) 3)],
          some (pyRound (max ((if 0 < q1 + q2 then
                (q1 / (q1 + q2), q2 / (q1 + q2)) else (1/2, 1/2)).1)
              ((if 0 < q1 + q2 then
                (q1 / (q1 + q2), q2 / (q1 + q2)) else (1/2, 1/2)).2)) 3)⟩) ∧
    (∀ (probs : List (String × ℚ)) (w : Option ℚ)
        (tp : Option (List (String × ℚ))) (wp : Option ℚ)
        (es : Option (List (String × ℚ))) (fmt : String),
      probs.length ≠ 2 →
      (matchFix ⟨some ⟨some probs, w⟩, tp, wp, es⟩ fmt).prediction =
        some ⟨some probs, w⟩) := by
  constructor
  · intro t1 t2 q1 q2 w tp wp es fmt hne
    unfold matchFix
    simp [dlookup, dset, hne, hne.symm]
  · intro probs w tp wp es fmt hlen
    match probs, hlen with
    | [], _ => simp [matchFix]
    | [(t1, q1)], _ => simp [matchFix]
    | [(t1, q1), (t2, q2)], hlen => exact absurd rfl hlen
    | (t1, q1) :: (t2, q2) :: (t3, q3) :: rest, _ => simp [matchFix]

/-- C6 witness: probabilities A 3, B 1 normalize to 0.75 and 0.25 with
win_probability 0.75. -/
theorem probability_normalization_witness :
    (matchFix ⟨some ⟨some [("A", 3), ("B", 1)], none⟩, none, none, none⟩
        "T20I").prediction =
      some ⟨some [("A", 3/4), ("B", 1/4)], some (3/4)⟩ := by
  rw [probability_normalization.1 "A" "B" 3 1 none none none none "T20I"
    (by decide)]
  norm_num [pyRound, roundHalfEven]

/-- C10: no range clamping is applied to normalized probabilities — with
probabilities A −1 and B 3 (total 2 > 0) the returned values are the raw
ratios −0.5 and 1.5, one negative and one above 1, and win_probability is
1.5 > 1. -/
theorem no_probability_clamping :
    (matchFix ⟨some ⟨some [("A", -1), ("B", 3)], none⟩, none, none, none⟩
        "T20I").prediction =
      some ⟨some [("A", -(1/2)), ("B", 3/2)], some (3/2)⟩ ∧
    (-(1/2) : ℚ) < 0 ∧ (1:ℚ) < 3/2 := by
  refine ⟨?_, by norm_num, by norm_num⟩
  norm_num [matchFix, dlookup, dset, pyRound, roundHalfEven,
    (by decide : ¬("A" : String) = "B"), (by decide : ¬("B" : String) = "A")]
